import Mathlib

/-!
Verification of the ShoreSquad front-end state logic against its
natural-language specification.

The repository has three near-duplicate variants of one UI module:
  - src/js/app.js          (Open-Meteo weather variant)
  - src/unnamed/part_000   (NEA 24-hour weather variant, seeds demo stats)
  - src/unnamed/part_001   (NEA dual-endpoint weather variant)

Modelling conventions, chosen once and used throughout:
  - JavaScript numbers are embedded as rationals, so that the non-integer
    literals of the source (for example the station coordinates) are exact.
  - JSON values are embedded as the inductive JVal; localStorage is a pair
    of optional JSON slots, since JSON.parse of JSON.stringify of a JSON
    tree yields an equal tree for the data shapes this program stores.
  - JavaScript truthiness of a JSON value is JVal.truthy, and the frequent
    idiom a.b or-else default is jsOr, which returns the default exactly
    when the field is absent or falsy, as the source operator does.
  - fallible steps return Option; a total Lean function models a
    try/catch block that never lets an exception escape.
  - DOM access is out of scope: render functions are modelled as the
    values interpolated into the templates, and the modelled page is
    assumed to contain the target elements.
-/

namespace ShoreSquad

/-- A crew member as built in handleCrewSubmit (all three variants):
id from Date.now(), name and role from the form, joinedDate a display
string from toLocaleDateString(). -/
structure CrewMember where
  id : ℚ
  name : String
  role : String
  joinedDate : String
deriving DecidableEq

/-- The aggregate stats record of AppState (all three variants). -/
structure Stats where
  cleanups : ℚ
  trash : ℚ
  beaches : ℚ
  crewMembers : ℚ
deriving DecidableEq

/-- The slice of AppState the claims are about: the crew list and the
stats record. -/
structure AppState where
  crew : List CrewMember
  stats : Stats
deriving DecidableEq

/-- AppConfig.mockStats of src/unnamed/part_000: the demo snapshot the
NEA variant seeds when the stats slot is absent or corrupt. -/
def mockStats : Stats :=
  { cleanups := 12, trash := 847, beaches := 5, crewMembers := 28 }

/-- The initial AppState literal of all three variants: empty crew and
zeroed stats. -/
def initState : AppState :=
  { crew := [], stats := { cleanups := 0, trash := 0, beaches := 0, crewMembers := 0 } }

/-! ## JSON values -/

/-- A JSON tree, covering the shapes this program stores and fetches
(numbers, strings, arrays, objects). -/
inductive JVal where
  | num (q : ℚ)
  | str (s : String)
  | arr (xs : List JVal)
  | obj (fields : List (String × JVal))

/-- First binding of a key in an object field list. The save path of this
program never writes a duplicate key. -/
def lookupField : List (String × JVal) → String → Option JVal
  | [], _ => none
  | (k, v) :: rest, key => if k = key then some v else lookupField rest key

/-- Property access data.key as JavaScript evaluates it on our JVal
universe: a field of an object, undefined (none) otherwise. -/
def JVal.getField : JVal → String → Option JVal
  | .obj fields, key => lookupField fields key
  | _, _ => none

/-- JavaScript truthiness of a JSON value: zero and the empty string are
falsy, arrays and objects are always truthy. -/
def JVal.truthy : JVal → Bool
  | .num q => decide (q ≠ 0)
  | .str s => decide (s ≠ "")
  | .arr _ => true
  | .obj _ => true

/-- The source idiom value or-default: undefined (none) or a falsy value
yields the default, any truthy value passes through. -/
def jsOr (v : Option JVal) (d : JVal) : JVal :=
  match v with
  | some x => if x.truthy then x else d
  | none => d

/-! ## Persistence: JSON.stringify / JSON.parse of the two slots -/

/-- The JSON tree JSON.stringify produces for one crew member: object
keys in insertion order of the literal in handleCrewSubmit. -/
def encodeMember (m : CrewMember) : JVal :=
  .obj [("id", .num m.id), ("name", .str m.name), ("role", .str m.role),
        ("joinedDate", .str m.joinedDate)]

/-- Reading one stored member back as a CrewMember: the shape the save
path writes. -/
def decodeMember : JVal → Option CrewMember
  | .obj [("id", .num id), ("name", .str name), ("role", .str role),
          ("joinedDate", .str joinedDate)] =>
      some { id := id, name := name, role := role, joinedDate := joinedDate }
  | _ => none

/-- JSON.stringify of the crew list: an array of member objects. -/
def encodeCrew (crew : List CrewMember) : JVal :=
  .arr (crew.map encodeMember)

/-- Element-wise read-back of a stored member array. -/
def decodeMembers : List JVal → Option (List CrewMember)
  | [] => some []
  | v :: rest =>
      match decodeMember v, decodeMembers rest with
      | some m, some ms => some (m :: ms)
      | _, _ => none

/-- Reading the crew slot back as a crew list. -/
def decodeCrew : JVal → Option (List CrewMember)
  | .arr xs => decodeMembers xs
  | _ => none

/-- JSON.stringify of the stats record, keys in insertion order of the
AppState literal. -/
def encodeStats (s : Stats) : JVal :=
  .obj [("cleanups", .num s.cleanups), ("trash", .num s.trash),
        ("beaches", .num s.beaches), ("crewMembers", .num s.crewMembers)]

/-- Reading the stats slot back as a Stats record. -/
def decodeStats : JVal → Option Stats
  | .obj [("cleanups", .num cleanups), ("trash", .num trash),
          ("beaches", .num beaches), ("crewMembers", .num crewMembers)] =>
      some { cleanups := cleanups, trash := trash, beaches := beaches,
             crewMembers := crewMembers }
  | _ => none

/-- The two localStorage slots this program uses (shoresquad_crew and
shoresquad_stats); none models an absent entry. -/
structure Store where
  crewSlot : Option JVal
  statsSlot : Option JVal

/-- A fresh browser profile: both slots absent. -/
def emptyStore : Store := { crewSlot := none, statsSlot := none }

/-- saveStateToStorage (identical in all three variants): serializes both
slots from the current state. Write failures are swallowed in the source;
the model keeps the successful-write behaviour, which is the one the
round-trip claims are about. -/
def saveStateToStorage (st : AppState) (_store : Store) : Store :=
  { crewSlot := some (encodeCrew st.crew), statsSlot := some (encodeStats st.stats) }

/-- loadStateFromStorage of src/js/app.js: each present slot overwrites
the in-memory value; an absent or unreadable slot leaves the previous
value in place (the catch block keeps whatever was already assigned). -/
def loadStateFromStorage (store : Store) (st : AppState) : AppState :=
  let crew :=
    match store.crewSlot with
    | some v => (decodeCrew v).getD st.crew
    | none => st.crew
  let stats :=
    match store.statsSlot with
    | some v => (decodeStats v).getD st.stats
    | none => st.stats
  { st with crew := crew, stats := stats }

/-- loadStateFromStorage of src/unnamed/part_000: like the app.js load,
except that an absent or unreadable stats slot seeds the demo snapshot
AppConfig.mockStats instead of keeping the previous stats. -/
def loadStateFromStorageNea (store : Store) (st : AppState) : AppState :=
  let crew :=
    match store.crewSlot with
    | some v => (decodeCrew v).getD st.crew
    | none => st.crew
  let stats :=
    match store.statsSlot with
    | some v => (decodeStats v).getD mockStats
    | none => mockStats
  { st with crew := crew, stats := stats }

/-! ## Crew management and stats handlers -/

/-- handleCrewSubmit (identical in all three variants): build the member
from the clock and the form fields, push it, and recompute crewMembers
as the new list length. -/
def handleCrewSubmit (nowId : ℚ) (name role joinedDate : String)
    (st : AppState) : AppState :=
  let crewMember : CrewMember :=
    { id := nowId, name := name, role := role, joinedDate := joinedDate }
  let crew := st.crew ++ [crewMember]
  { st with crew := crew,
            stats := { st.stats with crewMembers := (crew.length : ℚ) } }

/-- removeCrewMember (identical in all three variants): keep exactly the
members whose id differs from the given one (JavaScript strict
inequality on ids), then recompute crewMembers. -/
def removeCrewMember (i : ℚ) (st : AppState) : AppState :=
  let crew := st.crew.filter (fun m => decide (m.id ≠ i))
  { st with crew := crew,
            stats := { st.stats with crewMembers := (crew.length : ℚ) } }

/-- handleScheduleCleanup (identical in all three variants); randomItems
stands for Math.floor(Math.random() * 50) + 20. -/
def handleScheduleCleanup (randomItems : ℚ) (st : AppState) : AppState :=
  let cleanups := st.stats.cleanups + 1
  { st with stats := { cleanups := cleanups,
                       trash := st.stats.trash + randomItems,
                       beaches := min cleanups 5,
                       crewMembers := st.stats.crewMembers } }

/-- The spec invariant: Stats.crewMembers mirrors the crew list length. -/
def crewInv (st : AppState) : Prop :=
  st.stats.crewMembers = (st.crew.length : ℚ)

instance (st : AppState) : Decidable (crewInv st) := by
  unfold crewInv; infer_instance

/-! ## Round-trip helper lemmas -/

lemma decodeMember_encodeMember (m : CrewMember) :
    decodeMember (encodeMember m) = some m := rfl

lemma decodeMembers_map_encodeMember (crew : List CrewMember) :
    decodeMembers (crew.map encodeMember) = some crew := by
  induction crew with
  | nil => rfl
  | cons m rest ih => simp [decodeMembers, decodeMember_encodeMember, ih]

lemma decodeCrew_encodeCrew (crew : List CrewMember) :
    decodeCrew (encodeCrew crew) = some crew := by
  simp [decodeCrew, encodeCrew, decodeMembers_map_encodeMember]

lemma decodeStats_encodeStats (s : Stats) :
    decodeStats (encodeStats s) = some s := rfl

lemma load_after_save (st stPrior : AppState) (store : Store) :
    loadStateFromStorage (saveStateToStorage st store) stPrior = st := by
  simp [loadStateFromStorage, saveStateToStorage,
        decodeCrew_encodeCrew, decodeStats_encodeStats]

lemma loadNea_after_save (st stPrior : AppState) (store : Store) :
    loadStateFromStorageNea (saveStateToStorage st store) stPrior = st := by
  simp [loadStateFromStorageNea, saveStateToStorage,
        decodeCrew_encodeCrew, decodeStats_encodeStats]

/-! ## Weather fetch pipelines -/

/-- An HTTP response as the pipelines observe it: the status code, and
the JSON tree response.json() resolves to, or none when the body is not
valid JSON (the json() call throws). A rejected fetch (network failure)
is modelled as the whole response being absent. -/
structure HttpResponse where
  status : Nat
  body : Option JVal

/-- response.ok of the Fetch API: status in the range 200 to 299. -/
def HttpResponse.ok (r : HttpResponse) : Bool :=
  decide (200 ≤ r.status ∧ r.status < 300)

/-- getMockWeatherData of src/unnamed/part_000: the deterministic NEA
24-hour mock, parameterized by the two timestamp strings the source
computes from the clock. -/
def getMockWeatherData (now endTs : String) : JVal :=
  .obj [("items", .arr [
          .obj [("update_timestamp", .str now),
                ("valid_period", .obj [("start", .str now), ("end", .str endTs)]),
                ("general", .obj [
                    ("forecast", .str "Partly cloudy"),
                    ("relative_humidity", .obj [("low", .num 60), ("high", .num 85)]),
                    ("temperature", .obj [("low", .num 22), ("high", .num 28)]),
                    ("wind", .obj [
                        ("speed", .obj [("low", .num 8), ("high", .num 15)]),
                        ("direction", .str "NE")])])]]),
        ("api_info", .obj [("status", .str "healthy")])]

/-- fetchWeatherData of src/unnamed/part_000: one GET against the NEA
24-hour endpoint; a rejected fetch, a non-ok status (the explicit throw
on response.ok being false) or an unparseable body all land in the catch
block, which substitutes the mock. The result is the JSON tree stored in
AppState.weather and handed to updateWeatherUI, paired with true exactly
when the mock was used; the function being total models that the catch
lets no exception escape. -/
def fetchWeatherDataNea (resp : Option HttpResponse) (now endTs : String) :
    JVal × Bool :=
  match resp with
  | none => (getMockWeatherData now endTs, true)
  | some r =>
      if r.ok = false then (getMockWeatherData now endTs, true)
      else
        match r.body with
        | none => (getMockWeatherData now endTs, true)
        | some data => (data, false)

/-- getMockWeatherData of src/js/app.js: the Open-Meteo shaped mock. -/
def getMockWeatherDataOm : JVal :=
  .obj [("current", .obj [("temperature_2m", .num 22),
                          ("weather_code", .num 80),
                          ("wind_speed_10m", .num 12)])]

/-- fetchWeatherData of src/js/app.js. This variant never consults
response.ok: whatever JSON the body parses to is handed to
updateWeatherUI inside the try block. That render call throws (a
TypeError on current.temperature_2m) exactly when the parsed tree has no
current field, in which case the catch substitutes the mock; otherwise
the parsed tree itself is rendered, whatever the status code was. -/
def fetchWeatherDataApp (resp : Option HttpResponse) : JVal × Bool :=
  match resp with
  | none => (getMockWeatherDataOm, true)
  | some r =>
      match r.body with
      | none => (getMockWeatherDataOm, true)
      | some data =>
          if (data.getField "current").isNone then (getMockWeatherDataOm, true)
          else (data, false)

/-- getMockForecastData of src/unnamed/part_001: the 4-day NEA mock,
parameterized by the timestamp and date strings the source computes from
the clock (getDateString 0..3). -/
def getMockForecastData (startTs endTs d0 d1 d2 d3 : String) : JVal :=
  .obj [("items", .arr [
          .obj [("valid_period", .obj [("start", .str startTs), ("end", .str endTs)]),
                ("forecasts", .arr [
                    .obj [("date", .str d0), ("forecast", .str "Partly cloudy"),
                          ("relative_humidity", .obj [("low", .num 60), ("high", .num 80)])],
                    .obj [("date", .str d1), ("forecast", .str "Thundery showers"),
                          ("relative_humidity", .obj [("low", .num 70), ("high", .num 90)])],
                    .obj [("date", .str d2), ("forecast", .str "Cloudy"),
                          ("relative_humidity", .obj [("low", .num 65), ("high", .num 85)])],
                    .obj [("date", .str d3), ("forecast", .str "Partly cloudy"),
                          ("relative_humidity", .obj [("low", .num 60), ("high", .num 80)])]])]])]

/-- getMockReadingsData of src/unnamed/part_001: the station-reading
mock. -/
def getMockReadingsData : JVal :=
  .obj [("items", .arr [
          .obj [("metadata", .obj [("stations", .arr [
                    .obj [("id", .str "S1"), ("name", .str "Pasir Ris"),
                          ("location", .obj [("lat", .num (1.3815 : ℚ)),
                                             ("lon", .num (103.9556 : ℚ))])]])]),
                ("readings", .arr [
                    .obj [("station_id", .str "S1"), ("value", .num 24)]])]])]

/-- fetchWeatherData of src/unnamed/part_001: awaits the 4-day forecast
call, then the current-readings call, and only then runs the combined
render; any rejection or parse failure of either call reaches the single
catch block, which substitutes the full mock pair. Each component of the
result is the JSON tree given to the combined updateWeatherUI call,
paired with true exactly when it is a mock. -/
def fetchWeatherDataDual (forecastResp readingsResp : Option HttpResponse)
    (startTs endTs d0 d1 d2 d3 : String) : (JVal × Bool) × (JVal × Bool) :=
  match forecastResp with
  | none => ((getMockForecastData startTs endTs d0 d1 d2 d3, true), (getMockReadingsData, true))
  | some fr =>
      match fr.body with
      | none => ((getMockForecastData startTs endTs d0 d1 d2 d3, true), (getMockReadingsData, true))
      | some forecastData =>
          match readingsResp with
          | none => ((getMockForecastData startTs endTs d0 d1 d2 d3, true), (getMockReadingsData, true))
          | some rr =>
              match rr.body with
              | none => ((getMockForecastData startTs endTs d0 d1 d2 d3, true), (getMockReadingsData, true))
              | some readingsData => ((forecastData, false), (readingsData, false))

/-- A weather call fails, in the sense of the catch blocks of the
pipelines, when the fetch rejects or the body is not valid JSON. -/
def fetchFails (resp : Option HttpResponse) : Bool :=
  match resp with
  | none => true
  | some r => r.body.isNone

/-! ## Condition text to glyph -/

/-- JavaScript text.includes(pat) on lower-cased character lists:
pat occurs contiguously inside text. -/
def includes (text pat : List Char) : Bool :=
  decide (pat <:+: text)

/-- getForecastEmoji (identical in src/unnamed/part_000 and
src/unnamed/part_001): lower-case the condition text, then test the
substring patterns in source order; the first match decides the glyph
and unmatched text gets the generic glyph. -/
def getForecastEmoji (forecastText : List Char) : String :=
  let text := forecastText.map Char.toLower
  if includes text (("thundery").toList) || includes text (("thunder").toList) then "⛈️"
  else if includes text (("rain").toList) || includes text (("shower").toList) then "🌧️"
  else if includes text (("cloudy").toList) || includes text (("cloud").toList) then "☁️"
  else if includes text (("partly cloudy").toList) then "⛅"
  else if includes text (("clear").toList) || includes text (("sunny").toList) then "☀️"
  else if includes text (("windy").toList) || includes text (("wind").toList) then "💨"
  else "🌤️"

/-- The glyphs getForecastEmoji can actually produce: one per reachable
branch. The partly-cloudy glyph of the fourth branch is not among them. -/
def reachableGlyphs : List String :=
  ["⛈️", "🌧️", "☁️", "☀️", "💨", "🌤️"]

/-! ## Render-time normalization of the NEA 24-hour shape -/

/-- The values src/unnamed/part_000 updateWeatherUI interpolates into
the current-weather and ocean-conditions templates: the condition text
and its glyph, the temperature band, the humidity band and the wind
band. -/
structure Rendered where
  emoji : String
  forecastText : JVal
  tempLow : JVal
  tempHigh : JVal
  humidityLow : JVal
  humidityHigh : JVal
  windLow : JVal
  windHigh : JVal
  windDir : JVal

/-- updateWeatherUI of src/unnamed/part_000, as the normalization it
performs on the parsed weather tree. The early return on a missing or
falsy items[0] is none; each band value is read through the source
or-default chain (general.temperature or empty object, then field
or-default), so each field defaults independently of the others. The
glyph computation calls toLowerCase on the forecast value, which throws
on a non-string, so a tree whose forecast field holds a non-string is
also none (that exception lands in the callers catch). -/
def updateWeatherUI (weatherData : JVal) : Option Rendered :=
  match weatherData.getField "items" with
  | some (.arr (item :: _)) =>
      if item.truthy = false then none
      else
        let general := jsOr (item.getField "general") (.obj [])
        let temp := jsOr (general.getField "temperature") (.obj [])
        let humidity := jsOr (general.getField "relative_humidity") (.obj [])
        let forecastVal := jsOr (general.getField "forecast") (.str "Partly cloudy")
        match forecastVal with
        | .str forecastText =>
            some { emoji := getForecastEmoji forecastText.toList,
                   forecastText := .str forecastText,
                   tempLow := jsOr (temp.getField "low") (.num 22),
                   tempHigh := jsOr (temp.getField "high") (.num 28),
                   humidityLow := jsOr (humidity.getField "low") (.num 60),
                   humidityHigh := jsOr (humidity.getField "high") (.num 85),
                   windLow := jsOr ((general.getField "wind").bind
                       (fun w => (w.getField "speed").bind
                         (fun s => s.getField "low"))) (.num 8),
                   windHigh := jsOr ((general.getField "wind").bind
                       (fun w => (w.getField "speed").bind
                         (fun s => s.getField "high"))) (.num 15),
                   windDir := jsOr ((general.getField "wind").bind
                       (fun w => w.getField "direction")) (.str "NE") }
        | _ => none
  | _ => none

/-- An optional numeric JSON field: present with the given value, or
absent from the object. Test-input constructor for the defaulting
claims. -/
def optNumField (key : String) (v : Option ℚ) : List (String × JVal) :=
  match v with
  | some q => [(key, .num q)]
  | none => []

/-- A general-forecast object with condition text Cloudy, no wind block,
and humidity and temperature fields present exactly where the options
are some. Test-input constructor for the defaulting claims. -/
def mkGeneral (hl hh tl th : Option ℚ) : JVal :=
  .obj [("forecast", .str "Cloudy"),
        ("relative_humidity", .obj (optNumField "low" hl ++ optNumField "high" hh)),
        ("temperature", .obj (optNumField "low" tl ++ optNumField "high" th))]

/-- A parsed NEA 24-hour body whose single item carries the given
general block. Test-input constructor for the defaulting claims. -/
def mkBody (general : JVal) : JVal :=
  .obj [("items", .arr [.obj [("general", general)]])]

/-- An optional numeric field rendered through the source or-default:
the default when the field is absent or holds zero, the value
otherwise. -/
def jsOrNumD (v : Option ℚ) (d : ℚ) : JVal :=
  jsOr (v.map JVal.num) (.num d)

lemma updateWeatherUI_mkBody (hl hh tl th : Option ℚ) :
    updateWeatherUI (mkBody (mkGeneral hl hh tl th)) =
      some { emoji := "☁️",
             forecastText := .str "Cloudy",
             tempLow := jsOrNumD tl 22,
             tempHigh := jsOrNumD th 28,
             humidityLow := jsOrNumD hl 60,
             humidityHigh := jsOrNumD hh 85,
             windLow := .num 8,
             windHigh := .num 15,
             windDir := .str "NE" } := by
  rcases hl with _ | hlv <;> rcases hh with _ | hhv <;>
    rcases tl with _ | tlv <;> rcases th with _ | thv <;> rfl

lemma jsOrNumD_of_ne_zero (v : Option ℚ) (d : ℚ) (h : v ≠ some 0) :
    jsOrNumD v d = .num (v.getD d) := by
  rcases v with _ | q
  · rfl
  · have hq : q ≠ 0 := by
      intro h0
      exact h (by rw [h0])
    simp [jsOrNumD, jsOr, JVal.truthy, hq]

/-! ## Shared proof helpers -/

lemma includes_of_infix {pat1 pat2 text : List Char} (hsub : pat1 <:+: pat2)
    (h : includes text pat2 = true) : includes text pat1 = true := by
  rw [includes, decide_eq_true_iff] at h ⊢
  exact hsub.trans h

/-- A one-member demo roster used as a concrete witness input. -/
def demoState : AppState :=
  { crew := [{ id := 1, name := "Alex", role := "Lead", joinedDate := "1/1/2025" }],
    stats := { cleanups := 0, trash := 0, beaches := 0, crewMembers := 1 } }

/-- The JSON body of a non-success response that nevertheless parses and
carries a well-formed current block. -/
def errorBodyWithCurrent : JVal :=
  .obj [("current", .obj [("temperature_2m", .num 25), ("weather_code", .num 1),
                          ("wind_speed_10m", .num 10)])]

/-! ## Claims -/

/-- C1 counterexample: immediately after loading from a fresh store, the
NEA variant (src/unnamed/part_000) seeds the demo stats snapshot, whose
crewMembers field is 28 while the crew list is empty, so crewMembers does
not equal the crew list length right after load. -/
theorem c1_fresh_load_breaks_invariant_cex :
    ¬ crewInv (loadStateFromStorageNea emptyStore initState) := by decide

/-- C1 (amended): crewMembers equals the crew list length after every
crew add and every crew remove; after a load it equals the length
provided the store was written by a save of a state satisfying the
invariant, in both load variants. It can fail after a load whose stats
slot is absent, as the counterexample shows. -/
theorem c1_crew_members_matches_length :
    (∀ (nowId : ℚ) (name role joinedDate : String) (st : AppState),
        crewInv (handleCrewSubmit nowId name role joinedDate st)) ∧
    (∀ (i : ℚ) (st : AppState), crewInv (removeCrewMember i st)) ∧
    (∀ (st stPrior : AppState) (store : Store), crewInv st →
        crewInv (loadStateFromStorage (saveStateToStorage st store) stPrior) ∧
        crewInv (loadStateFromStorageNea (saveStateToStorage st store) stPrior)) := by
  refine ⟨?_, ?_, ?_⟩
  · intro nowId name role joinedDate st
    simp [crewInv, handleCrewSubmit]
  · intro i st
    simp [crewInv, removeCrewMember]
  · intro st stPrior store h
    rw [load_after_save, loadNea_after_save]
    exact ⟨h, h⟩

/-- C2 counterexample: the Open-Meteo variant (src/js/app.js) never
checks response.ok, so a status-500 response whose body parses and has a
current block is rendered live (the mock flag is false), not replaced by
the mock. -/
theorem c2_app_ignores_status_cex :
    HttpResponse.ok { status := 500, body := some errorBodyWithCurrent } = false ∧
    (fetchWeatherDataApp (some { status := 500, body := some errorBodyWithCurrent })).1 =
      errorBodyWithCurrent ∧
    (fetchWeatherDataApp (some { status := 500, body := some errorBodyWithCurrent })).2 =
      false := by
  refine ⟨by decide, rfl, rfl⟩

/-- C2 (amended): in the NEA 24-hour variant (src/unnamed/part_000) a
non-success HTTP status is treated identically to a network failure: the
pipeline output is exactly the deterministic mock forecast and, the
function being total, no exception escapes. The Open-Meteo variant does
not check the status at all, as the counterexample shows. -/
theorem c2_non_ok_uses_mock (r : HttpResponse) (now endTs : String)
    (h : r.ok = false) :
    fetchWeatherDataNea (some r) now endTs = (getMockWeatherData now endTs, true) := by
  simp [fetchWeatherDataNea, h]

/-- C2 witness: a 500 response with an unparsed-to-nothing JSON body
takes the mock path in the NEA variant. -/
theorem c2_non_ok_uses_mock_wit :
    fetchWeatherDataNea (some { status := 500, body := some (.obj []) }) "t0" "t1" =
      (getMockWeatherData "t0" "t1", true) :=
  c2_non_ok_uses_mock { status := 500, body := some (.obj []) } "t0" "t1" (by decide)

/-- C3 counterexample: the text Partly cloudy is captured by the earlier
cloud branch, so it maps to the generic cloud glyph and not to the
partly-cloudy glyph the claim requires. -/
theorem c3_partly_cloudy_glyph_cex :
    getForecastEmoji (("Partly cloudy").toList) = "☁️" ∧
    getForecastEmoji (("Partly cloudy").toList) ≠ "⛅" := by
  exact ⟨rfl, by decide⟩

/-- C3 (amended): the glyph mapping is a pure case-insensitive substring
match in the source priority order; Thundery showers maps to the
thunderstorm glyph, any text containing thunder maps to the thunderstorm
glyph regardless of later patterns, unrecognized text maps to the
generic glyph, and Partly cloudy maps to the generic cloud glyph because
the cloud branch precedes the partly-cloudy branch. -/
theorem c3_emoji_mapping :
    getForecastEmoji (("Thundery showers").toList) = "⛈️" ∧
    getForecastEmoji (("Partly cloudy").toList) = "☁️" ∧
    getForecastEmoji (("Hazy").toList) = "🌤️" ∧
    (∀ t : List Char, includes (t.map Char.toLower) (("thunder").toList) = true →
        getForecastEmoji t = "⛈️") := by
  refine ⟨rfl, rfl, rfl, ?_⟩
  intro t h
  simp only [getForecastEmoji]
  rw [h]
  simp

/-- C4: after every schedule-cleanup action the beaches counter equals
min of the new cleanups counter and 5, for any starting stats and any
random item count. -/
theorem c4_beaches_eq_min (randomItems : ℚ) (st : AppState) :
    (handleScheduleCleanup randomItems st).stats.beaches =
      min (handleScheduleCleanup randomItems st).stats.cleanups 5 := by
  simp [handleScheduleCleanup]

/-- C5 counterexample: in a body where the temperature low field is
absent and the humidity low field is present with value 0, the render
step substitutes the humidity default 60 for the present value 0
(JavaScript or-defaulting replaces falsy present values), so a present
field does not always pass through unchanged. -/
theorem c5_present_zero_replaced_cex :
    updateWeatherUI (mkBody (mkGeneral (some 0) (some 85) none (some 28))) =
      some { emoji := "☁️", forecastText := .str "Cloudy",
             tempLow := .num 22, tempHigh := .num 28,
             humidityLow := .num 60, humidityHigh := .num 85,
             windLow := .num 8, windHigh := .num 15, windDir := .str "NE" } ∧
    (0 : ℚ) ≠ 60 := by
  exact ⟨rfl, by norm_num⟩

/-- C5 (amended): defaulting is per-field, never per-call: every absent
band field is replaced by its own documented default (humidity 60 to 85,
temperature 22 to 28, wind 8 to 15 NE) and every present truthy field
passes through unchanged; a present falsy value, however, is also
replaced by its default, as the counterexample shows. -/
theorem c5_per_field_defaults (hl hh tl th : Option ℚ)
    (hhl : hl ≠ some 0) (hhh : hh ≠ some 0)
    (htl : tl ≠ some 0) (hth : th ≠ some 0) :
    updateWeatherUI (mkBody (mkGeneral hl hh tl th)) =
      some { emoji := "☁️", forecastText := .str "Cloudy",
             tempLow := .num (tl.getD 22), tempHigh := .num (th.getD 28),
             humidityLow := .num (hl.getD 60), humidityHigh := .num (hh.getD 85),
             windLow := .num 8, windHigh := .num 15, windDir := .str "NE" } := by
  rw [updateWeatherUI_mkBody,
      jsOrNumD_of_ne_zero tl 22 htl, jsOrNumD_of_ne_zero th 28 hth,
      jsOrNumD_of_ne_zero hl 60 hhl, jsOrNumD_of_ne_zero hh 85 hhh]

/-- C5 witness: a body missing the whole humidity band gets exactly the
60 to 85 default while its present temperature band passes through. -/
theorem c5_per_field_defaults_wit :
    updateWeatherUI (mkBody (mkGeneral none none (some 24) (some 30))) =
      some { emoji := "☁️", forecastText := .str "Cloudy",
             tempLow := .num 24, tempHigh := .num 30,
             humidityLow := .num 60, humidityHigh := .num 85,
             windLow := .num 8, windHigh := .num 15, windDir := .str "NE" } :=
  c5_per_field_defaults none none (some 24) (some 30)
    (by decide) (by decide) (by decide) (by decide)

/-- C6: in the dual-endpoint variant (src/unnamed/part_001) the combined
render receives both results only after both calls finished: the two
mock flags always agree (never one live and one mock), and a failure of
either call yields the full mock pair. -/
theorem c6_dual_fetch_all_or_nothing (forecastResp readingsResp : Option HttpResponse)
    (startTs endTs d0 d1 d2 d3 : String) :
    ((fetchWeatherDataDual forecastResp readingsResp startTs endTs d0 d1 d2 d3).1.2 =
       (fetchWeatherDataDual forecastResp readingsResp startTs endTs d0 d1 d2 d3).2.2) ∧
    ((fetchFails forecastResp = true ∨ fetchFails readingsResp = true) →
       fetchWeatherDataDual forecastResp readingsResp startTs endTs d0 d1 d2 d3 =
         ((getMockForecastData startTs endTs d0 d1 d2 d3, true),
          (getMockReadingsData, true))) := by
  rcases forecastResp with _ | ⟨fs, fb⟩
  · exact ⟨rfl, fun _ => rfl⟩
  · rcases fb with _ | fd
    · exact ⟨rfl, fun _ => rfl⟩
    · rcases readingsResp with _ | ⟨rs, rb⟩
      · exact ⟨rfl, fun _ => rfl⟩
      · rcases rb with _ | rd
        · exact ⟨rfl, fun _ => rfl⟩
        · refine ⟨rfl, ?_⟩
          intro h
          rcases h with h | h <;> simp [fetchFails] at h

/-- C7: saving any crew list and reloading from the store yields the
same members with identical ids, names, roles and join dates, whatever
in-memory state the load starts from, in both load variants. -/
theorem c7_save_load_roundtrip (st stPrior : AppState) (store : Store) :
    (loadStateFromStorage (saveStateToStorage st store) stPrior).crew = st.crew ∧
    (loadStateFromStorageNea (saveStateToStorage st store) stPrior).crew = st.crew := by
  rw [load_after_save, loadNea_after_save]
  exact ⟨rfl, rfl⟩

/-- C8: removing a crew member by an id held by no member leaves the
crew list unchanged; the handler is a total function, so it does not
throw. -/
theorem c8_remove_absent_id (i : ℚ) (st : AppState)
    (h : ∀ m ∈ st.crew, m.id ≠ i) :
    (removeCrewMember i st).crew = st.crew := by
  show st.crew.filter (fun m => decide (m.id ≠ i)) = st.crew
  refine List.filter_eq_self.mpr ?_
  intro m hm
  simpa using h m hm

/-- C8 witness: removing id 2 from the demo roster, whose only member
has id 1, leaves the roster unchanged. -/
theorem c8_remove_absent_id_wit :
    (removeCrewMember 2 demoState).crew = demoState.crew :=
  c8_remove_absent_id 2 demoState (by decide)

/-- C9: for every input text the glyph mapping lands in the list of
glyphs of the reachable branches, which does not contain the
partly-cloudy glyph: any text containing partly cloudy also contains
cloudy, so the earlier cloud branch always fires first. -/
theorem c9_partly_cloudy_unreachable (t : List Char) :
    getForecastEmoji t ∈ reachableGlyphs := by
  simp only [getForecastEmoji]
  split_ifs with h1 h2 h3 h4 h5 h6
  · decide
  · decide
  · decide
  · exfalso
    have hc : includes (t.map Char.toLower) (("cloudy").toList) = true :=
      includes_of_infix (by decide) h4
    exact h3 (by rw [hc]; simp)
  · decide
  · decide
  · decide

/-- C10: removal by id drops every member whose id equals the given id,
keeps every member whose id differs, and the survivors appear in their
original relative order (the result is a sublist of the input). -/
theorem c10_remove_filter_order (i : ℚ) (st : AppState) :
    List.Sublist (removeCrewMember i st).crew st.crew ∧
    (∀ m ∈ (removeCrewMember i st).crew, m.id ≠ i) ∧
    (∀ m ∈ st.crew, m.id ≠ i → m ∈ (removeCrewMember i st).crew) := by
  refine ⟨List.filter_sublist st.crew, ?_, ?_⟩
  · intro m hm
    simp only [removeCrewMember] at hm
    have := List.mem_filter.mp hm
    simpa using this.2
  · intro m hm hne
    show m ∈ st.crew.filter (fun m => decide (m.id ≠ i))
    refine List.mem_filter.mpr ⟨hm, ?_⟩
    simpa using hne

end ShoreSquad
